import Mathlib

/-!
Shallow embedding of src/netbox/project-static/src/sidenav.ts (the SideNav
class and its helpers).

The class mutates: four boolean attributes on document.body
(data-sidenav-show / -hide / -hidden / -pinned), the CSS classes
"collapsed" and "active" and the aria-expanded attribute on navigation
links, the open state of each registered bootstrap Collapse panel, the
persisted NavState (pinned : boolean) held in a StateManager keyed
"netbox-sidenav", and the instance fields activeLink and
currentMobileState.

Everything the code only reads from the browser is collected in a
read-only environment Env: the nav links found by the querySelectorAll
of getActiveLinks in document order, each link href, the current
window.location.href, the RegExp test used by getActiveLinks, the result
of the ancestor walk plus the scope child nav-link query of activateLink
(lines 194-201 of the source), and whether each mobile toggler has a
non-null offsetParent. The mutable part is the structure St.
-/

/-- Nav link elements (HTMLAnchorElement) are identified by numeric ids. -/
abbrev LinkId := Nat

/-- Classes and the aria-expanded attribute of one nav link; none means the
aria-expanded attribute is absent. -/
structure LinkState where
  collapsed : Bool
  active : Bool
  ariaExpanded : Option Bool
deriving DecidableEq, Repr

/-- The four data-sidenav attributes on document.body, see type BodyAttr
in the source. -/
structure BodyFlags where
  fShow : Bool
  fHide : Bool
  fHidden : Bool
  fPinned : Bool
deriving DecidableEq, Repr

/-- The names of the four body attributes: show, hide, hidden, pinned. -/
inductive BodyAttr where
  | aShow
  | aHide
  | aHidden
  | aPinned
deriving DecidableEq, Repr

/-- Set (setAttribute) or clear (removeAttribute) one body attribute. -/
def setFlag (b : BodyFlags) : BodyAttr → Bool → BodyFlags
  | BodyAttr.aShow, v => { b with fShow := v }
  | BodyAttr.aHide, v => { b with fHide := v }
  | BodyAttr.aHidden, v => { b with fHidden := v }
  | BodyAttr.aPinned, v => { b with fPinned := v }

/-- SideNav.bodyAdd: set each listed attribute on document.body. -/
def bodyAdd (b : BodyFlags) (attrs : List BodyAttr) : BodyFlags :=
  attrs.foldl (fun acc a => setFlag acc a true) b

/-- SideNav.bodyRemove: clear each listed attribute on document.body. -/
def bodyRemove (b : BodyFlags) (attrs : List BodyAttr) : BodyFlags :=
  attrs.foldl (fun acc a => setFlag acc a false) b

/-- Read-only browser environment of one SideNav instance: navLinks is
the querySelectorAll result of getActiveLinks in document order,
linkHref the href of a link, locationHref the current
window.location.href, reTest pattern haystack the truthiness of
haystack.match(new RegExp(pattern, "gi")), groupLinkOf the combined
result of the ancestor nav-item walk and the scope child nav-link query
of activateLink, and mobileTogglers whether each sidenav-toggle-mobile
element has a non-null offsetParent, in document order. -/
structure Env where
  navLinks : List LinkId
  linkHref : LinkId → String
  locationHref : String
  reTest : String → String → Bool
  groupLinkOf : LinkId → Option LinkId
  mobileTogglers : List Bool

/-- Mutable state of one SideNav instance plus the document state it
writes: the body attributes, per-link classes and aria-expanded, the
open state of each Collapse panel, the activeLink and currentMobileState
fields, the persisted pinned preference (the NavState of the
StateManager), and the keys of the sections map in insertion order. -/
structure St where
  body : BodyFlags
  linkCls : LinkId → LinkState
  panel : LinkId → Bool
  activeLink : Option LinkId
  currentMobileState : Option Bool
  store : Bool
  sections : List LinkId

/-- Apply f to the classes and aria-expanded of link l only. -/
def updateLink (s : St) (l : LinkId) (f : LinkState → LinkState) : St :=
  { s with linkCls := fun x => if x = l then f (s.linkCls l) else s.linkCls x }

/-- Set the open state of the Collapse panel of link l: Collapse.show is
setPanel true, Collapse.hide is setPanel false. -/
def setPanel (s : St) (l : LinkId) (v : Bool) : St :=
  { s with panel := fun x => if x = l then v else s.panel x }

/-- One iteration of the loops in SideNav.hide (lines 107-111) and
SideNav.closeInactiveSections (lines 148-153): add the collapsed class,
set aria-expanded to false, and hide the Collapse panel of link l. -/
def collapseSection (s : St) (l : LinkId) : St :=
  setPanel (updateLink s l (fun c => { c with collapsed := true, ariaExpanded := some false })) l false

/-- The action argument of SideNav.activateLink. -/
inductive NavAction where
  | expand
  | collapse
deriving DecidableEq, Repr

/-- The regex test of SideNav.getActiveLinks: window.location.href.match(
new RegExp(link.href, "gi")) is non-null. -/
def matchesLocation (env : Env) (l : LinkId) : Bool :=
  env.reTest (env.linkHref l) env.locationHref

/-- The generator loop of SideNav.getActiveLinks over the remaining
querySelectorAll results: yield each link whose href matches the current
location. -/
def getActiveLinksAux (env : Env) : List LinkId → List LinkId
  | [] => []
  | l :: rest =>
    if matchesLocation env l then l :: getActiveLinksAux env rest
    else getActiveLinksAux env rest

/-- SideNav.getActiveLinks (lines 229-238): the sequence of nav links
whose href matches the current location, in document order. The source
generator only reads the DOM and yields; it performs no writes, which
the embedding records by giving it no St argument and no St result. -/
def getActiveLinks (env : Env) : List LinkId :=
  getActiveLinksAux env env.navLinks

/-- Modelled from the wording of the spec, for comparison with
getActiveLinks: every registered link whose href matches the current
location, all matching links, in DOM document order. -/
def activeLinksSpec (env : Env) : List LinkId :=
  env.navLinks.filter (fun l => matchesLocation env l)

/-- SideNav.activateLink (lines 193-223). The ancestor walk and the
scope child nav-link query are the environment query groupLinkOf; the
isElement guard is the match on its Option result, and the
sections.get instanceof Collapse guard is membership of the group link
in the sections map. -/
def activateLink (env : Env) (s : St) (link : LinkId) (action : NavAction) : St :=
  match env.groupLinkOf link with
  | none => s
  | some groupLink =>
    if groupLink ∈ s.sections then
      let s1 := updateLink s groupLink (fun c => { c with active := true })
      match action with
      | NavAction.expand =>
        let s2 := updateLink s1 groupLink (fun c => { c with ariaExpanded := some true })
        let s3 := setPanel s2 groupLink true
        let s4 := updateLink s3 link (fun c => { c with active := true })
        updateLink s4 groupLink (fun c => { c with collapsed := false })
      | NavAction.collapse =>
        let s2 := updateLink s1 groupLink (fun c => { c with ariaExpanded := some false })
        let s3 := setPanel s2 groupLink false
        let s4 := updateLink s3 link (fun c => { c with active := false })
        updateLink s4 groupLink (fun c => { c with collapsed := true })
    else s

/-- SideNav.show (lines 93-99): add the show attribute, remove hidden
and hide, then expand every currently active link. -/
def showOp (env : Env) (s : St) : St :=
  let s1 := { s with body := bodyAdd s.body [BodyAttr.aShow] }
  let s2 := { s1 with body := bodyRemove s1.body [BodyAttr.aHidden, BodyAttr.aHide] }
  (getActiveLinks env).foldl (fun acc l => activateLink env acc l NavAction.expand) s2

/-- SideNav.hide (lines 104-114): add hide, remove pinned and show,
collapse every registered section, then remove hide and add hidden. -/
def hideOp (s : St) : St :=
  let s1 := { s with body := bodyAdd s.body [BodyAttr.aHide] }
  let s2 := { s1 with body := bodyRemove s1.body [BodyAttr.aPinned, BodyAttr.aShow] }
  let s3 := s2.sections.foldl collapseSection s2
  let s4 := { s3 with body := bodyRemove s3.body [BodyAttr.aHide] }
  { s4 with body := bodyAdd s4.body [BodyAttr.aHidden] }

/-- SideNav.pin (lines 119-123): persist pinned as true, add the pinned
attribute, then show. -/
def pinOp (env : Env) (s : St) : St :=
  let s1 := { s with store := true }
  let s2 := { s1 with body := bodyAdd s1.body [BodyAttr.aPinned] }
  showOp env s2

/-- SideNav.unpin (lines 128-131): persist pinned as false, then hide. -/
def unpinOp (s : St) : St :=
  hideOp { s with store := false }

/-- SideNav.closeInactiveSections (lines 147-155): collapse every
registered section whose link is not the activeLink. -/
def closeInactiveSections (s : St) : St :=
  s.sections.foldl (fun acc l => if some l ≠ acc.activeLink then collapseSection acc l else acc) s

/-- SideNav.handleSectionClick (lines 137-142): record the clicked link
(the event target) as activeLink and close the other sections. The
call of event.preventDefault only suppresses navigation and touches no
modelled state. -/
def handleSectionClick (s : St) (element : LinkId) : St :=
  closeInactiveSections { s with activeLink := some element }

/-- SideNav.onResize (lines 261-279): if some mobile toggler is rendered
the first such toggler is handled and the handler returns, hiding the
nav when the previous state was not yet mobile; otherwise, when the
previous state was not yet desktop, the persisted preference is applied
and the state becomes desktop. -/
def onResize (env : Env) (s : St) : St :=
  if env.mobileTogglers.any (fun b => b) then
    match s.currentMobileState with
    | none => { hideOp s with currentMobileState := some true }
    | some false => { hideOp s with currentMobileState := some true }
    | some true => s
  else
    match s.currentMobileState with
    | some false => s
    | _ =>
      let s1 := if s.store then pinOp env s else unpinOp s
      { s1 with currentMobileState := some false }

/-- SideNav.onToggle (lines 284-291): unpin when the persisted
preference is pinned, else pin. -/
def onToggle (env : Env) (s : St) : St :=
  if s.store then unpinOp s else pinOp env s

/-- SideNav.onMobileToggle (lines 297-304): hide when the show attribute
is present, else show. -/
def onMobileToggle (env : Env) (s : St) : St :=
  if s.body.fShow then hideOp s else showOp env s

/-- SideNav.onEnter (lines 243-247): show unless mobile or pinned. -/
def onEnter (env : Env) (s : St) : St :=
  if s.currentMobileState = some true ∨ s.body.fPinned = true then s else showOp env s

/-- SideNav.onLeave (lines 252-256): hide unless mobile or pinned. -/
def onLeave (s : St) : St :=
  if s.currentMobileState = some true ∨ s.body.fPinned = true then s else hideOp s

/-- Initial classes of a link: no classes, no aria-expanded attribute. -/
def linkClsInit : LinkState :=
  { collapsed := false, active := false, ariaExpanded := none }

/-- A concrete instance state with two registered sections. -/
def stInit : St :=
  { body := { fShow := false, fHide := false, fHidden := false, fPinned := false }
  , linkCls := fun _ => linkClsInit
  , panel := fun _ => false
  , activeLink := none
  , currentMobileState := none
  , store := true
  , sections := [0, 1] }

/-- A concrete desktop environment with two nav links that both match
the current location. -/
def envTest : Env :=
  { navLinks := [0, 1]
  , linkHref := fun _ => "x"
  , locationHref := "x"
  , reTest := fun p h => p == h
  , groupLinkOf := fun _ => none
  , mobileTogglers := [] }

/-- The same environment with one rendered mobile toggler. -/
def envMobile : Env :=
  { envTest with mobileTogglers := [true] }

/-- An environment in which the ancestor walk from any link finds link 0
as its own group link. -/
def envGroupSelf : Env :=
  { envTest with groupLinkOf := fun _ => some 0 }


/-- Link l carries the collapsed class, aria-expanded false, and a
closed Collapse panel. -/
abbrev sectionCollapsed (s : St) (l : LinkId) : Prop :=
  (s.linkCls l).collapsed = true ∧ (s.linkCls l).ariaExpanded = some false ∧ s.panel l = false

theorem collapseSection_body (s : St) (l : LinkId) : (collapseSection s l).body = s.body := rfl

theorem collapseSection_store (s : St) (l : LinkId) : (collapseSection s l).store = s.store := rfl

theorem collapseSection_activeLink (s : St) (l : LinkId) :
    (collapseSection s l).activeLink = s.activeLink := rfl

theorem collapseSection_sections (s : St) (l : LinkId) :
    (collapseSection s l).sections = s.sections := rfl

theorem collapseSection_cms (s : St) (l : LinkId) :
    (collapseSection s l).currentMobileState = s.currentMobileState := rfl

theorem collapseSection_self (s : St) (l : LinkId) : sectionCollapsed (collapseSection s l) l := by
  refine ⟨?_, ?_, ?_⟩ <;> simp [collapseSection, setPanel, updateLink]

theorem collapseSection_mono (s : St) (x l : LinkId) (h : sectionCollapsed s l) :
    sectionCollapsed (collapseSection s x) l := by
  by_cases hx : l = x
  · subst hx; exact collapseSection_self s l
  · simpa [sectionCollapsed, collapseSection, setPanel, updateLink, hx] using h

theorem foldl_preserves {α β : Type} (f : St → α → St) (proj : St → β)
    (hf : ∀ s a, proj (f s a) = proj s) :
    ∀ (ls : List α) (s : St), proj (ls.foldl f s) = proj s := by
  intro ls
  induction ls with
  | nil => intro s; rfl
  | cons a as ih => intro s; rw [List.foldl_cons, ih, hf]

theorem foldl_collapseSection :
    ∀ (ls : List LinkId) (s : St) (l : LinkId),
      l ∈ ls ∨ sectionCollapsed s l →
      sectionCollapsed (ls.foldl collapseSection s) l := by
  intro ls
  induction ls with
  | nil =>
    intro s l h
    rcases h with h | h
    · cases h
    · exact h
  | cons a as ih =>
    intro s l h
    rw [List.foldl_cons]
    rcases h with h | h
    · rcases List.mem_cons.mp h with rfl | h2
      · exact ih _ _ (Or.inr (collapseSection_self s l))
      · exact ih _ _ (Or.inl h2)
    · exact ih _ _ (Or.inr (collapseSection_mono s a l h))

theorem activateLink_frame (env : Env) (s : St) (link : LinkId) (a : NavAction) :
    (activateLink env s link a).body = s.body ∧
    (activateLink env s link a).store = s.store ∧
    (activateLink env s link a).currentMobileState = s.currentMobileState ∧
    (activateLink env s link a).activeLink = s.activeLink ∧
    (activateLink env s link a).sections = s.sections := by
  rcases hgl : env.groupLinkOf link with _ | g
  · simp [activateLink, hgl]
  · by_cases hg : g ∈ s.sections
    · simp only [activateLink, hgl]
      rw [if_pos hg]
      cases a <;> exact ⟨rfl, rfl, rfl, rfl, rfl⟩
    · simp only [activateLink, hgl]
      rw [if_neg hg]
      exact ⟨rfl, rfl, rfl, rfl, rfl⟩

theorem hideOp_body (s : St) :
    (hideOp s).body = { fShow := false, fHide := false, fHidden := true, fPinned := false } := by
  have h := foldl_preserves collapseSection St.body collapseSection_body
  simp [hideOp, bodyAdd, bodyRemove, setFlag, h]

theorem hideOp_store (s : St) : (hideOp s).store = s.store := by
  have h := foldl_preserves collapseSection St.store collapseSection_store
  simp [hideOp, h]

theorem showOp_body (env : Env) (s : St) :
    (showOp env s).body = { s.body with fShow := true, fHidden := false, fHide := false } := by
  have h := foldl_preserves (fun acc l => activateLink env acc l NavAction.expand) St.body
    (fun s2 l => (activateLink_frame env s2 l NavAction.expand).1)
  simp [showOp, bodyAdd, bodyRemove, setFlag, h]

theorem showOp_store (env : Env) (s : St) : (showOp env s).store = s.store := by
  have h := foldl_preserves (fun acc l => activateLink env acc l NavAction.expand) St.store
    (fun s2 l => (activateLink_frame env s2 l NavAction.expand).2.1)
  simp [showOp, h]

theorem pinOp_store (env : Env) (s : St) : (pinOp env s).store = true := by
  simp [pinOp, showOp_store]

theorem pinOp_body (env : Env) (s : St) :
    (pinOp env s).body =
      { s.body with fPinned := true, fShow := true, fHidden := false, fHide := false } := by
  simp [pinOp, showOp_body, bodyAdd, setFlag]

theorem unpinOp_store (s : St) : (unpinOp s).store = false := by
  simp [unpinOp, hideOp_store]

theorem unpinOp_body (s : St) :
    (unpinOp s).body = { fShow := false, fHide := false, fHidden := true, fPinned := false } := by
  simp [unpinOp, hideOp_body]

theorem closeStep_activeLink (s : St) (x : LinkId) :
    (if some x ≠ s.activeLink then collapseSection s x else s).activeLink = s.activeLink := by
  split <;> rfl

theorem closeStep_sections (s : St) (x : LinkId) :
    (if some x ≠ s.activeLink then collapseSection s x else s).sections = s.sections := by
  split <;> rfl

theorem closeStep_mono (s : St) (x l : LinkId) (h : sectionCollapsed s l) :
    sectionCollapsed (if some x ≠ s.activeLink then collapseSection s x else s) l := by
  split
  · exact collapseSection_mono s x l h
  · exact h

theorem foldl_closeStep :
    ∀ (ls : List LinkId) (s : St) (l : LinkId),
      (l ∈ ls ∧ some l ≠ s.activeLink) ∨ sectionCollapsed s l →
      sectionCollapsed
        (ls.foldl (fun acc x => if some x ≠ acc.activeLink then collapseSection acc x else acc) s)
        l := by
  intro ls
  induction ls with
  | nil =>
    intro s l h
    rcases h with ⟨h, _⟩ | h
    · cases h
    · exact h
  | cons a as ih =>
    intro s l h
    rw [List.foldl_cons]
    rcases h with ⟨hmem, hne⟩ | hpost
    · rcases List.mem_cons.mp hmem with rfl | h2
      · refine ih _ _ (Or.inr ?_)
        rw [if_pos hne]
        exact collapseSection_self s l
      · refine ih _ _ (Or.inl ⟨h2, ?_⟩)
        have heq := closeStep_activeLink s a
        exact fun hc => hne (heq ▸ hc)
    · exact ih _ _ (Or.inr (closeStep_mono s a l hpost))

theorem closeInactiveSections_activeLink (s : St) :
    (closeInactiveSections s).activeLink = s.activeLink := by
  have h := foldl_preserves
    (fun acc x => if some x ≠ acc.activeLink then collapseSection acc x else acc)
    St.activeLink (fun s2 x => closeStep_activeLink s2 x)
  exact h s.sections s

theorem closeInactiveSections_sections (s : St) :
    (closeInactiveSections s).sections = s.sections := by
  have h := foldl_preserves
    (fun acc x => if some x ≠ acc.activeLink then collapseSection acc x else acc)
    St.sections (fun s2 x => closeStep_sections s2 x)
  exact h s.sections s

theorem handleSectionClick_activeLink (s : St) (e : LinkId) :
    (handleSectionClick s e).activeLink = some e := by
  unfold handleSectionClick
  rw [closeInactiveSections_activeLink]

theorem handleSectionClick_sections (s : St) (e : LinkId) :
    (handleSectionClick s e).sections = s.sections := by
  unfold handleSectionClick
  rw [closeInactiveSections_sections]

theorem handleSectionClick_collapses (s : St) (e l : LinkId)
    (hl : l ∈ s.sections) (hne : l ≠ e) :
    sectionCollapsed (handleSectionClick s e) l :=
  foldl_closeStep s.sections { s with activeLink := some e } l
    (Or.inl ⟨hl, fun hc => hne (Option.some.inj hc)⟩)

theorem hideOp_collapses (s : St) (l : LinkId) (hl : l ∈ s.sections) :
    sectionCollapsed (hideOp s) l := by
  have h := foldl_collapseSection s.sections
    { s with body := bodyRemove (bodyAdd s.body [BodyAttr.aHide]) [BodyAttr.aPinned, BodyAttr.aShow] }
    l (Or.inl hl)
  exact ⟨h.1, h.2.1, h.2.2⟩

/-- A call to SideNav.pin or SideNav.unpin. -/
inductive PinCall where
  | pin
  | unpin
deriving DecidableEq, Repr

/-- The boolean that a pin or unpin call persists to the state store. -/
def pinTarget : PinCall → Bool
  | PinCall.pin => true
  | PinCall.unpin => false

/-- Run a sequence of pin and unpin calls, earliest first. -/
def runPinCalls (env : Env) (s : St) (calls : List PinCall) : St :=
  calls.foldl (fun acc c =>
    match c with
    | PinCall.pin => pinOp env acc
    | PinCall.unpin => unpinOp acc) s

/-- A call to one of the four visibility operations. -/
inductive VisOp where
  | vshow
  | vhide
  | vpin
  | vunpin
deriving DecidableEq, Repr

/-- Apply one visibility operation. -/
def applyVisOp (env : Env) (s : St) : VisOp → St
  | VisOp.vshow => showOp env s
  | VisOp.vhide => hideOp s
  | VisOp.vpin => pinOp env s
  | VisOp.vunpin => unpinOp s

/-- Run a sequence of visibility operations, earliest first. -/
def runVisOps (env : Env) (s : St) (ops : List VisOp) : St :=
  ops.foldl (applyVisOp env) s

/-- The body-flag invariant: the pinned attribute implies the show
attribute set and the hidden attribute clear. -/
abbrev PinnedImpliesShown (s : St) : Prop :=
  s.body.fPinned = true → s.body.fShow = true ∧ s.body.fHidden = false

theorem applyVisOp_inv (env : Env) (s : St) (op : VisOp) :
    PinnedImpliesShown (applyVisOp env s op) := by
  cases op
  · intro _
    rw [applyVisOp, showOp_body]
    exact ⟨rfl, rfl⟩
  · intro h
    rw [applyVisOp, hideOp_body] at h
    cases h
  · intro _
    rw [applyVisOp, pinOp_body]
    exact ⟨rfl, rfl⟩
  · intro h
    rw [applyVisOp, unpinOp_body] at h
    cases h

/-- Claim C1: every call of hide ends with exactly the hidden flag set
among show, hide, hidden, with the pinned flag cleared, and every
registered section link carries the collapsed class and aria-expanded
false with its Collapse panel collapsed. -/
theorem hide_postcondition (s : St) :
    (hideOp s).body.fHidden = true ∧ (hideOp s).body.fShow = false ∧
    (hideOp s).body.fHide = false ∧ (hideOp s).body.fPinned = false ∧
    ∀ l, l ∈ s.sections → sectionCollapsed (hideOp s) l := by
  refine ⟨?_, ?_, ?_, ?_, fun l hl => hideOp_collapses s l hl⟩ <;> rw [hideOp_body]

/-- Claim C1 witness: from a concrete state with registered sections 0
and 1, hide collapses section 0. -/
theorem hide_postcondition_witness :
    (0 : LinkId) ∈ stInit.sections ∧ sectionCollapsed (hideOp stInit) 0 :=
  ⟨by decide, (hide_postcondition stInit).2.2.2.2 0 (by decide)⟩

/-- Claim C2: after any nonempty sequence of pin and unpin calls,
written cs ++ [c], the persisted pinned preference equals true when the
most recent call c is pin and false when it is unpin. -/
theorem pin_unpin_last_call (env : Env) (s : St) (cs : List PinCall) (c : PinCall) :
    (runPinCalls env s (cs ++ [c])).store = pinTarget c := by
  rw [runPinCalls, List.foldl_append]
  cases c <;> simp [List.foldl, pinTarget, pinOp_store, unpinOp_store]

/-- Claim C3: the invariant that a set pinned flag implies a set show
flag and a clear hidden flag is preserved by every sequence of the four
visibility operations. -/
theorem visops_preserve_pinned_implies_shown (env : Env) (s : St) (ops : List VisOp)
    (h : PinnedImpliesShown s) : PinnedImpliesShown (runVisOps env s ops) := by
  induction ops generalizing s with
  | nil => exact h
  | cons op rest ih =>
    rw [runVisOps, List.foldl_cons]
    exact ih _ (applyVisOp_inv env s op)

/-- Claim C3 witness: the invariant holds of the concrete initial state
and is preserved across a concrete pin, hide, show sequence. -/
theorem visops_preserve_pinned_implies_shown_witness :
    PinnedImpliesShown stInit ∧
    PinnedImpliesShown (runVisOps envTest stInit [VisOp.vpin, VisOp.vhide, VisOp.vshow]) :=
  ⟨fun h => absurd h (by decide),
    visops_preserve_pinned_implies_shown envTest stInit [VisOp.vpin, VisOp.vhide, VisOp.vshow]
      (fun h => absurd h (by decide))⟩

/-- Claim C4: for distinct registered section links A and B, clicking A
then B leaves section A collapsed (class, aria-expanded false, panel
collapsed), records B as the activeLink, and collapses every registered
section other than B. -/
theorem section_click_collapses_others (s : St) (A B : LinkId)
    (hA : A ∈ s.sections) (_hB : B ∈ s.sections) (hAB : A ≠ B) :
    sectionCollapsed (handleSectionClick (handleSectionClick s A) B) A ∧
    (handleSectionClick (handleSectionClick s A) B).activeLink = some B ∧
    ∀ l, l ∈ s.sections → l ≠ B →
      sectionCollapsed (handleSectionClick (handleSectionClick s A) B) l := by
  have hgen : ∀ l, l ∈ s.sections → l ≠ B →
      sectionCollapsed (handleSectionClick (handleSectionClick s A) B) l := by
    intro l hl hlB
    have hl1 : l ∈ (handleSectionClick s A).sections := by
      rw [handleSectionClick_sections]; exact hl
    exact handleSectionClick_collapses (handleSectionClick s A) B l hl1 hlB
  exact ⟨hgen A hA hAB, handleSectionClick_activeLink (handleSectionClick s A) B, hgen⟩

/-- Claim C4 witness: with registered sections 0 and 1, clicking 0 then
1 collapses section 0. -/
theorem section_click_collapses_others_witness :
    (0 : LinkId) ∈ stInit.sections ∧ (1 : LinkId) ∈ stInit.sections ∧ (0 : LinkId) ≠ 1 ∧
    sectionCollapsed (handleSectionClick (handleSectionClick stInit 0) 1) 0 :=
  ⟨by decide, by decide, by decide,
    (section_click_collapses_others stInit 0 1 (by decide) (by decide) (by decide)).1⟩

theorem getActiveLinksAux_eq (env : Env) :
    ∀ ls : List LinkId, getActiveLinksAux env ls = ls.filter (fun l => matchesLocation env l) := by
  intro ls
  induction ls with
  | nil => rfl
  | cons a as ih =>
    by_cases h : matchesLocation env a = true <;>
      simp [getActiveLinksAux, List.filter_cons, h, ih]

/-- Claim C5: getActiveLinks yields exactly the nav links whose href
matches the current location and, being a subsequence of the
querySelectorAll result, yields them in DOM document order; it takes no
mutable state and returns none, so every call yields the same sequence
and mutates nothing. -/
theorem getActiveLinks_matches_spec (env : Env) :
    getActiveLinks env = activeLinksSpec env ∧
    List.Sublist (getActiveLinks env) env.navLinks := by
  constructor
  · exact getActiveLinksAux_eq env env.navLinks
  · simp only [getActiveLinks, getActiveLinksAux_eq]
    exact List.filter_sublist env.navLinks

/-- Claim C6: when some mobile toggler is rendered, a resize with
currentMobileState already true changes nothing, and otherwise it hides
the nav and sets currentMobileState to true. -/
theorem onResize_mobile_transition (env : Env) (s : St)
    (h : env.mobileTogglers.any (fun b => b) = true) :
    (s.currentMobileState = some true → onResize env s = s) ∧
    (s.currentMobileState ≠ some true →
      onResize env s = { hideOp s with currentMobileState := some true }) := by
  constructor
  · intro hc
    simp [onResize, h, hc]
  · intro hc
    rcases hcs : s.currentMobileState with _ | b
    · simp [onResize, h, hcs]
    · cases b
      · simp [onResize, h, hcs]
      · exact absurd hcs hc

/-- Claim C6 witness: with a rendered mobile toggler and
currentMobileState still null, resize hides the nav and the state
becomes mobile. -/
theorem onResize_mobile_transition_witness :
    envMobile.mobileTogglers.any (fun b => b) = true ∧
    onResize envMobile stInit = { hideOp stInit with currentMobileState := some true } :=
  ⟨by decide, (onResize_mobile_transition envMobile stInit (by decide)).2 (by decide)⟩

/-- Claim C7: when no mobile toggler is rendered and currentMobileState
is not already false, resize applies the persisted preference, pin when
it is true and unpin otherwise, and currentMobileState becomes false;
in particular with the preference true the nav ends pinned and shown. -/
theorem onResize_desktop_transition (env : Env) (s : St)
    (h1 : env.mobileTogglers.any (fun b => b) = false)
    (h2 : s.currentMobileState ≠ some false) :
    onResize env s =
      { (if s.store then pinOp env s else unpinOp s) with currentMobileState := some false } ∧
    (s.store = true →
      (onResize env s).store = true ∧ (onResize env s).body.fPinned = true ∧
      (onResize env s).body.fShow = true) := by
  have key : onResize env s =
      { (if s.store then pinOp env s else unpinOp s) with currentMobileState := some false } := by
    rcases hcs : s.currentMobileState with _ | b
    · simp [onResize, h1, hcs]
    · cases b
      · exact absurd hcs h2
      · simp [onResize, h1, hcs]
  refine ⟨key, fun hstore => ?_⟩
  rw [key, hstore]
  simp [pinOp_store, pinOp_body]

/-- Claim C7 witness: no mobile toggler rendered, currentMobileState
null, persisted preference true: after resize the pinned flag is set. -/
theorem onResize_desktop_transition_witness :
    envTest.mobileTogglers.any (fun b => b) = false ∧
    stInit.currentMobileState ≠ some false ∧ stInit.store = true ∧
    (onResize envTest stInit).body.fPinned = true := by
  have h := (onResize_desktop_transition envTest stInit (by decide) (by decide)).2 (by decide)
  exact ⟨by decide, by decide, by decide, h.2.1⟩

/-- Claim C8: when the ancestor walk of activateLink finds no group
nav-link, or the group link has no registered collapsible section, the
call returns the state unchanged. -/
theorem activateLink_silent_noop (env : Env) (s : St) (link : LinkId) (action : NavAction)
    (h : env.groupLinkOf link = none ∨
      ∃ g, env.groupLinkOf link = some g ∧ g ∉ s.sections) :
    activateLink env s link action = s := by
  rcases h with h | ⟨g, hg, hmem⟩
  · simp [activateLink, h]
  · simp [activateLink, hg, hmem]

/-- Claim C8 witness: in an environment in which the walk from link 0
finds no group link, activateLink leaves the concrete state unchanged. -/
theorem activateLink_silent_noop_witness :
    activateLink envTest stInit 0 NavAction.expand = stInit :=
  activateLink_silent_noop envTest stInit 0 NavAction.expand (Or.inl rfl)

/-- Claim C9 counterexample: when the group link found for the clicked
link is that link itself (a registered top-level section toggler), the
collapse action first adds the active class to the group link and then
removes it again, so the group link does not end with the active class
set. -/
theorem activateLink_group_active_cex :
    envGroupSelf.groupLinkOf 0 = some 0 ∧ (0 : LinkId) ∈ stInit.sections ∧
    ((activateLink envGroupSelf stInit 0 NavAction.collapse).linkCls 0).active = false :=
  ⟨rfl, by decide, by decide⟩

/-- Claim C9 as amended: whenever a registered collapsible section is
found for the group link, the active class is added to the group link
before the action is dispatched, so the group link ends with the active
class set for the expand action, and for the collapse action as well
provided the original link is distinct from the group link. -/
theorem activateLink_group_active (env : Env) (s : St) (link g : LinkId)
    (h1 : env.groupLinkOf link = some g) (h2 : g ∈ s.sections) :
    ((activateLink env s link NavAction.expand).linkCls g).active = true ∧
    (link ≠ g → ((activateLink env s link NavAction.collapse).linkCls g).active = true) := by
  constructor
  · by_cases hgl : g = link
    · subst hgl
      simp [activateLink, h1, h2, updateLink, setPanel]
    · simp [activateLink, h1, h2, updateLink, setPanel, hgl]
  · intro hne
    have hgl : ¬(g = link) := fun hh => hne hh.symm
    simp [activateLink, h1, h2, updateLink, setPanel, hgl]

/-- Claim C9 amended witness: link 1 has group link 0, registered, and
after the collapse action the group link keeps the active class. -/
theorem activateLink_group_active_witness :
    envGroupSelf.groupLinkOf 1 = some 0 ∧ (0 : LinkId) ∈ stInit.sections ∧ (1 : LinkId) ≠ 0 ∧
    ((activateLink envGroupSelf stInit 1 NavAction.collapse).linkCls 0).active = true :=
  ⟨rfl, by decide, by decide,
    (activateLink_group_active envGroupSelf stInit 1 0 rfl (by decide)).2 (by decide)⟩

/-- Claim C10: show and hide leave the persisted store untouched while
pin and unpin write it, show leaves the pinned body flag as it was, and
hide clears it. -/
theorem show_hide_store_frame (env : Env) (s : St) :
    (showOp env s).store = s.store ∧ (hideOp s).store = s.store ∧
    (pinOp env s).store = true ∧ (unpinOp s).store = false ∧
    (showOp env s).body.fPinned = s.body.fPinned ∧ (hideOp s).body.fPinned = false := by
  refine ⟨showOp_store env s, hideOp_store s, pinOp_store env s, unpinOp_store s, ?_, ?_⟩
  · rw [showOp_body]
  · rw [hideOp_body]
